import Mathlib

/-!
Verification development for the MotionDetectionUnityAvatar repository.

The repository holds two small Python scripts:

* `TEST.py` — a webcam sanity probe: open device 0, loop reading frames,
  display each frame in a window named "Webcam", break on a failed read or
  on the quit key `q`, then release the device and close the windows.
* `main.py` — a launcher: construct and start the external `BodyThread`
  worker, block on one line of console input, print an exit notice, set the
  shared shutdown flag `global_vars.KILL_THREADS`, sleep half a second, and
  terminate the process.

Both scripts are embedded as event-trace semantics: the probe as a
fuel-indexed loop over an abstract camera, the launcher as a sequence of
state-transforming steps over a state carrying the shutdown flag and the
trace of observable effects.
-/

namespace MediapipeAvatar

/-! ## Camera probe (`TEST.py`) -/

/-- A video frame, abstracted as a natural-number identifier. -/
abbrev Frame := Nat

/-- Observable effects of the camera probe, in program order. -/
inductive Event where
  /-- `cv2.VideoCapture(index)` -/
  | videoCapture (index : Nat)
  /-- `print(msg)` -/
  | printMsg (msg : String)
  /-- `cap.read()` -/
  | readFrame
  /-- `cv2.imshow(window, frame)` -/
  | imshow (window : String) (frame : Frame)
  /-- `cv2.waitKey(delayMs)` -/
  | waitKey (delayMs : Nat)
  /-- `cap.release()` -/
  | release
  /-- `cv2.destroyAllWindows()` -/
  | destroyAllWindows
  /-- process exit carrying status `code` -/
  | exitProc (code : Nat)
deriving DecidableEq, Repr

/-- The environment `TEST.py` runs against: whether the device opened, and
the result of the `i`-th `cap.read()` call (`none` models `ret == False`). -/
structure Camera where
  isOpened : Bool
  read : Nat → Option Frame

/-- `ord('q')`. -/
def ordQ : Nat := 113

/-- Message printed by `TEST.py` when the capture device cannot be opened. -/
def openFailMsg : String := "❌ Failed to open webcam"

/-- Message printed by `TEST.py` when a frame read fails. -/
def grabFailMsg : String := "❌ Failed to grab frame"

/-- The `while True:` loop of `TEST.py`, starting at iteration `i`, run with
`fuel` remaining iterations.  Each iteration performs `cap.read()`; on
failure it prints the grab-failure message and breaks; otherwise it shows
the frame in the "Webcam" window and polls `cv2.waitKey(1) & 0xFF` for
`ord('q')`, breaking when it matches.  Returns the events of the loop and
whether the loop exited (rather than running out of fuel). -/
def probeLoop (cam : Camera) (keys : Nat → Nat) : Nat → Nat → List Event × Bool
  | 0, _ => ([], false)
  | fuel + 1, i =>
    match cam.read i with
    | none => ([Event.readFrame, Event.printMsg grabFailMsg], true)
    | some frame =>
      let events := [Event.readFrame, Event.imshow "Webcam" frame, Event.waitKey 1]
      if keys i &&& 0xFF = ordQ then (events, true)
      else
        let rest := probeLoop cam keys fuel (i + 1)
        (events ++ rest.1, rest.2)

/-- The whole of `TEST.py`: open device 0; if it is not opened, print the
failure message and call the bare `exit()` (which carries status 0);
otherwise run the display loop, and once (and only if) the loop exits,
release the device and destroy the windows. -/
def probe (cam : Camera) (keys : Nat → Nat) (fuel : Nat) : List Event × Bool :=
  if cam.isOpened = false then
    ([Event.videoCapture 0, Event.printMsg openFailMsg, Event.exitProc 0], true)
  else
    let run := probeLoop cam keys fuel 0
    (Event.videoCapture 0 :: run.1 ++
      (if run.2 then [Event.release, Event.destroyAllWindows] else []), run.2)

/-- Whether an event is an `imshow`. -/
def Event.isImshow : Event → Bool
  | Event.imshow _ _ => true
  | _ => false

/-- Whether an event is a `readFrame`. -/
def Event.isRead : Event → Bool
  | Event.readFrame => true
  | _ => false

/-- Whether an event is a `waitKey` poll. -/
def Event.isWaitKey : Event → Bool
  | Event.waitKey _ => true
  | _ => false

/-- The frames displayed by a trace, in display order. -/
def displayedFrames (tr : List Event) : List Frame :=
  tr.filterMap fun e =>
    match e with
    | Event.imshow _ f => some f
    | _ => none

/-- The events of one successful non-quit loop iteration at index `i`, when
the camera yields frame `fr i`. -/
def iterEvents (fr : Nat → Frame) (i : Nat) : List Event :=
  [Event.readFrame, Event.imshow "Webcam" (fr i), Event.waitKey 1]

/-- The concatenated events of `n` successful non-quit iterations starting
at index `s`. -/
def prefixTrace (fr : Nat → Frame) (s : Nat) : Nat → List Event
  | 0 => []
  | n + 1 => iterEvents fr s ++ prefixTrace fr (s + 1) n

/-- A camera whose device cannot be opened. -/
def camClosed : Camera :=
  { isOpened := false, read := fun _ => none }

/-- An opened camera yielding `n` successful reads (frame `i` at read `i`)
followed by failing reads. -/
def camUpTo (n : Nat) : Camera :=
  { isOpened := true, read := fun i => if i < n then some i else none }

/-- An opened camera that always reads successfully, yielding frame `i` at
read `i`. -/
def camAlways : Camera :=
  { isOpened := true, read := fun i => some i }

/-- A `waitKey` result stream that never reports the quit key. -/
def keysNone : Nat → Nat := fun _ => 0

/-- A `waitKey` result stream reporting the quit key exactly at poll `k`. -/
def keysQuitAt (k : Nat) : Nat → Nat := fun i => if i = k then ordQ else 0

/-! ## Launcher (`main.py`) -/

/-- Observable effects of the launcher, in program order.  The value read
from standard input is bound to `i` in the source and never used, so the
`readLine` event records that a line was consumed but carries no content. -/
inductive MainEvent where
  /-- `thread = BodyThread()` -/
  | constructWorker
  /-- `thread.start()` -/
  | startWorker
  /-- `i = input()` — one line of console input is consumed -/
  | readLine
  /-- `print(msg)` -/
  | printMsg (msg : String)
  /-- assignment `global_vars.KILL_THREADS = value` -/
  | setKillThreads (value : Bool)
  /-- `time.sleep(seconds)` -/
  | sleepFor (seconds : ℚ)
  /-- `exit()` (from `sys`) carrying status `code` -/
  | exitProc (code : Nat)
deriving DecidableEq

/-- Modelled from the spec: the module `global_vars.py` is not part of the
provided source; the spec describes its `KILL_THREADS` field as "a single
process-wide boolean, default false".  This is that default. -/
def KILL_THREADS_init : Bool := false

/-- The launcher's state: the shared shutdown flag and the trace of
observable effects so far. -/
structure MainState where
  killThreads : Bool
  trace : List MainEvent
deriving DecidableEq

/-- State at process start: flag at its module default, empty trace. -/
def initState : MainState :=
  { killThreads := KILL_THREADS_init, trace := [] }

/-- `thread = BodyThread()` -/
def lineConstruct (s : MainState) : MainState :=
  { s with trace := s.trace ++ [MainEvent.constructWorker] }

/-- `thread.start()` -/
def lineStart (s : MainState) : MainState :=
  { s with trace := s.trace ++ [MainEvent.startWorker] }

/-- `i = input()` — blocks for one line; the bound value is never used
afterwards, which the underscore-prefixed binder records. -/
def lineInput (_inputLine : String) (s : MainState) : MainState :=
  { s with trace := s.trace ++ [MainEvent.readLine] }

/-- `print("Exiting…")` -/
def linePrint (s : MainState) : MainState :=
  { s with trace := s.trace ++ [MainEvent.printMsg "Exiting…"] }

/-- `global_vars.KILL_THREADS = True` -/
def lineSetKill (s : MainState) : MainState :=
  { killThreads := true, trace := s.trace ++ [MainEvent.setKillThreads true] }

/-- `time.sleep(0.5)` -/
def lineSleep (s : MainState) : MainState :=
  { s with trace := s.trace ++ [MainEvent.sleepFor (1 / 2)] }

/-- `exit()` — `sys.exit` with no argument, status 0. -/
def lineExit (s : MainState) : MainState :=
  { s with trace := s.trace ++ [MainEvent.exitProc 0] }

/-- The statements of `main.py` in program order, as state transformers,
given the line that `input()` returns. -/
def mainSteps (inputLine : String) : List (MainState → MainState) :=
  [lineConstruct, lineStart, lineInput inputLine, linePrint, lineSetKill,
   lineSleep, lineExit]

/-- The launcher's final state on input `inputLine`. -/
def mainRun (inputLine : String) : MainState :=
  (mainSteps inputLine).foldl (fun s f => f s) initState

/-- All intermediate launcher states, from `initState` to the final state. -/
def mainStates (inputLine : String) : List MainState :=
  (mainSteps inputLine).scanl (fun s f => f s) initState

/-- The shutdown-flag value after each statement of the launcher. -/
def killSeq (inputLine : String) : List Bool :=
  (mainStates inputLine).map MainState.killThreads

/-- The strings printed by a launcher trace, in order. -/
def printedMsgs (tr : List MainEvent) : List String :=
  tr.filterMap fun e =>
    match e with
    | MainEvent.printMsg m => some m
    | _ => none

/-- Count of flag assignments writing `value` in a launcher trace. -/
def setKillCount (tr : List MainEvent) (value : Bool) : Nat :=
  tr.countP fun e =>
    match e with
    | MainEvent.setKillThreads v => v = value
    | _ => false

/-! ## Loop infrastructure lemmas -/

/-- Running the loop past `n` successful, non-quit iterations produces the
canonical per-iteration triples followed by the remainder of the loop. -/
theorem probeLoop_skip (cam : Camera) (keys : Nat → Nat) (fr : Nat → Frame) :
    ∀ (n s fuel : Nat),
      (∀ j, j < n → cam.read (s + j) = some (fr (s + j)) ∧
        keys (s + j) &&& 0xFF ≠ ordQ) →
      probeLoop cam keys (n + fuel) s =
        (prefixTrace fr s n ++ (probeLoop cam keys fuel (s + n)).1,
         (probeLoop cam keys fuel (s + n)).2) := by
  intro n
  induction n with
  | zero => intro s fuel _; simp [prefixTrace]
  | succ m ih =>
    intro s fuel h
    have h0 := h 0 (Nat.succ_pos m)
    have hread : cam.read s = some (fr s) := by simpa using h0.1
    have hkey : ¬ (keys s &&& 0xFF = ordQ) := by simpa using h0.2
    have hrw : m + 1 + fuel = (m + fuel) + 1 := by omega
    rw [hrw]
    have hih := ih (s + 1) fuel (fun j hj => by
      have := h (j + 1) (Nat.succ_lt_succ hj)
      simpa [Nat.add_assoc, Nat.add_comm 1 j] using this)
    simp only [probeLoop, hread, hkey, if_neg hkey]
    rw [hih]
    have hs : s + 1 + m = s + (m + 1) := by omega
    simp [prefixTrace, iterEvents, hs]

/-- A failed read exits the loop with the grab-failure message. -/
theorem probeLoop_fail (cam : Camera) (keys : Nat → Nat) (s fuel : Nat)
    (h : cam.read s = none) :
    probeLoop cam keys (fuel + 1) s =
      ([Event.readFrame, Event.printMsg grabFailMsg], true) := by
  simp [probeLoop, h]

/-- A successful read followed by the quit key exits the loop after the
frame is displayed. -/
theorem probeLoop_quit (cam : Camera) (keys : Nat → Nat) (s fuel : Nat)
    (f : Frame) (hread : cam.read s = some f)
    (hkey : keys s &&& 0xFF = ordQ) :
    probeLoop cam keys (fuel + 1) s =
      ([Event.readFrame, Event.imshow "Webcam" f, Event.waitKey 1], true) := by
  simp [probeLoop, hread, hkey]

/-- Full run of the probe when the camera yields `n` successful reads, no
quit key is seen, and read `n` fails. -/
theorem probe_fail_run (cam : Camera) (keys : Nat → Nat) (fr : Nat → Frame)
    (n fuel : Nat) (hopen : cam.isOpened = true)
    (hsucc : ∀ j, j < n → cam.read j = some (fr j))
    (hnoq : ∀ j, j < n → keys j &&& 0xFF ≠ ordQ)
    (hfail : cam.read n = none) (hfuel : n + 1 ≤ fuel) :
    probe cam keys fuel =
      (Event.videoCapture 0 ::
        (prefixTrace fr 0 n ++ [Event.readFrame, Event.printMsg grabFailMsg]) ++
        [Event.release, Event.destroyAllWindows], true) := by
  obtain ⟨m, hm⟩ : ∃ m, fuel = n + (m + 1) := ⟨fuel - n - 1, by omega⟩
  subst hm
  have hskip := probeLoop_skip cam keys fr n 0 (m + 1) (fun j hj => by
    simpa using ⟨hsucc j hj, hnoq j hj⟩)
  have hexit := probeLoop_fail cam keys n m (by simpa using hfail)
  simp only [Nat.zero_add] at hskip
  simp [probe, hopen, hskip, hexit]

/-- Full run of the probe when the camera yields successful reads through
iteration `n`, no quit key is seen before `n`, and the quit key is seen at
iteration `n`. -/
theorem probe_quit_run (cam : Camera) (keys : Nat → Nat) (fr : Nat → Frame)
    (n fuel : Nat) (hopen : cam.isOpened = true)
    (hsucc : ∀ j, j ≤ n → cam.read j = some (fr j))
    (hnoq : ∀ j, j < n → keys j &&& 0xFF ≠ ordQ)
    (hq : keys n &&& 0xFF = ordQ) (hfuel : n + 1 ≤ fuel) :
    probe cam keys fuel =
      (Event.videoCapture 0 :: (prefixTrace fr 0 n ++ iterEvents fr n) ++
        [Event.release, Event.destroyAllWindows], true) := by
  obtain ⟨m, hm⟩ : ∃ m, fuel = n + (m + 1) := ⟨fuel - n - 1, by omega⟩
  subst hm
  have hskip := probeLoop_skip cam keys fr n 0 (m + 1) (fun j hj => by
    simpa using ⟨hsucc j (Nat.le_of_lt hj), hnoq j hj⟩)
  have hexit := probeLoop_quit cam keys n m (fr n)
    (by simpa using hsucc n (Nat.le_refl n)) (by simpa using hq)
  simp only [Nat.zero_add] at hskip
  simp [probe, hopen, hskip, hexit, iterEvents]

/-! ## Counting lemmas for the canonical loop trace -/

/-- Each completed iteration contributes exactly one displayed frame. -/
theorem countP_isImshow_prefixTrace (fr : Nat → Frame) :
    ∀ (n s : Nat), (prefixTrace fr s n).countP Event.isImshow = n := by
  intro n
  induction n with
  | zero => intro s; simp [prefixTrace]
  | succ m ih =>
    intro s
    simp [prefixTrace, iterEvents, List.countP_append, List.countP_cons,
      Event.isImshow, ih (s + 1)]

/-- Each completed iteration contributes exactly one frame read. -/
theorem countP_isRead_prefixTrace (fr : Nat → Frame) :
    ∀ (n s : Nat), (prefixTrace fr s n).countP Event.isRead = n := by
  intro n
  induction n with
  | zero => intro s; simp [prefixTrace]
  | succ m ih =>
    intro s
    simp [prefixTrace, iterEvents, List.countP_append, List.countP_cons,
      Event.isRead, ih (s + 1)]

/-- Each completed iteration contributes exactly one keypress poll. -/
theorem countP_isWaitKey_prefixTrace (fr : Nat → Frame) :
    ∀ (n s : Nat), (prefixTrace fr s n).countP Event.isWaitKey = n := by
  intro n
  induction n with
  | zero => intro s; simp [prefixTrace]
  | succ m ih =>
    intro s
    simp [prefixTrace, iterEvents, List.countP_append, List.countP_cons,
      Event.isWaitKey, ih (s + 1)]

/-- Completed iterations print nothing. -/
theorem count_printMsg_prefixTrace (fr : Nat → Frame) (m : String) :
    ∀ (n s : Nat), (prefixTrace fr s n).count (Event.printMsg m) = 0 := by
  intro n
  induction n with
  | zero => intro s; simp [prefixTrace]
  | succ k ih =>
    intro s
    simp [prefixTrace, iterEvents, List.count_append, List.count_cons,
      ih (s + 1)]

/-- Completed iterations never release the device. -/
theorem count_release_prefixTrace (fr : Nat → Frame) :
    ∀ (n s : Nat), (prefixTrace fr s n).count Event.release = 0 := by
  intro n
  induction n with
  | zero => intro s; simp [prefixTrace]
  | succ k ih =>
    intro s
    simp [prefixTrace, iterEvents, List.count_append, List.count_cons,
      ih (s + 1)]

/-- Completed iterations never destroy the windows. -/
theorem count_destroy_prefixTrace (fr : Nat → Frame) :
    ∀ (n s : Nat), (prefixTrace fr s n).count Event.destroyAllWindows = 0 := by
  intro n
  induction n with
  | zero => intro s; simp [prefixTrace]
  | succ k ih =>
    intro s
    simp [prefixTrace, iterEvents, List.count_append, List.count_cons,
      ih (s + 1)]

/-- The frames displayed over `n` completed iterations starting at `s` are
`fr s, fr (s+1), …, fr (s+n-1)`, in that order. -/
theorem displayedFrames_prefixTrace (fr : Nat → Frame) :
    ∀ (n s : Nat),
      displayedFrames (prefixTrace fr s n) = (List.range' s n).map fr := by
  intro n
  induction n with
  | zero => intro s; simp [prefixTrace, displayedFrames]
  | succ m ih =>
    intro s
    have := ih (s + 1)
    simp [prefixTrace, iterEvents, displayedFrames, List.range'_succ,
      List.filterMap_append] at *
    simpa [displayedFrames] using this

/-! ## Claim theorems: camera probe -/

/-- C2: for every `N ≥ 0`, if the camera opens successfully and yields `N`
successful frame reads followed by one failed read (and no quit key is
reported meanwhile), the probe performs exactly `N` displays (one `imshow`
per successful read, `N + 1` reads in all), prints the frame-failure
message exactly once, and exits the read loop exactly once. -/
theorem probe_displays_n_frames_then_fails (cam : Camera) (keys : Nat → Nat)
    (fr : Nat → Frame) (N fuel : Nat) (hopen : cam.isOpened = true)
    (hsucc : ∀ j, j < N → cam.read j = some (fr j))
    (hnoq : ∀ j, j < N → keys j &&& 0xFF ≠ ordQ)
    (hfail : cam.read N = none) (hfuel : N + 1 ≤ fuel) :
    (probe cam keys fuel).2 = true ∧
    ((probe cam keys fuel).1).countP Event.isImshow = N ∧
    ((probe cam keys fuel).1).countP Event.isRead = N + 1 ∧
    ((probe cam keys fuel).1).count (Event.printMsg grabFailMsg) = 1 := by
  rw [probe_fail_run cam keys fr N fuel hopen hsucc hnoq hfail hfuel]
  refine ⟨rfl, ?_, ?_, ?_⟩
  · simp [List.countP_append, List.countP_cons, Event.isImshow,
      countP_isImshow_prefixTrace]
  · simp [List.countP_append, List.countP_cons, Event.isRead,
      countP_isRead_prefixTrace]
  · simp [List.count_append, List.count_cons, count_printMsg_prefixTrace]

/-- C2 witness: a camera yielding frames `0, 1` then a failed read, with no
quit key, displays exactly `2` frames, reads `3` times, and prints the
grab-failure message once. -/
theorem probe_displays_n_frames_then_fails_witness :
    (probe (camUpTo 2) keysNone 3).2 = true ∧
    ((probe (camUpTo 2) keysNone 3).1).countP Event.isImshow = 2 ∧
    ((probe (camUpTo 2) keysNone 3).1).countP Event.isRead = 2 + 1 ∧
    ((probe (camUpTo 2) keysNone 3).1).count (Event.printMsg grabFailMsg) = 1 :=
  probe_displays_n_frames_then_fails (camUpTo 2) keysNone (fun j => j) 2 3 rfl
    (fun j hj => by simp [camUpTo, hj])
    (fun j _ => by simp [keysNone, ordQ])
    (by simp [camUpTo]) (by omega)

/-- C3: if the camera device cannot be opened, the probe prints the failure
message and exits at once: the whole trace is open, print, exit, and no
read, display or keypress poll ever occurs. -/
theorem probe_open_failure_exits_immediately (cam : Camera) (keys : Nat → Nat)
    (fuel : Nat) (h : cam.isOpened = false) :
    probe cam keys fuel =
      ([Event.videoCapture 0, Event.printMsg openFailMsg, Event.exitProc 0],
       true) ∧
    ((probe cam keys fuel).1).countP Event.isRead = 0 ∧
    ((probe cam keys fuel).1).countP Event.isImshow = 0 ∧
    ((probe cam keys fuel).1).countP Event.isWaitKey = 0 := by
  refine ⟨by simp [probe, h], ?_, ?_, ?_⟩ <;>
    simp [probe, h, List.countP_cons, Event.isRead, Event.isImshow,
      Event.isWaitKey]

/-- C3 witness: the closed camera with any key stream. -/
theorem probe_open_failure_exits_immediately_witness :
    probe camClosed keysNone 0 =
      ([Event.videoCapture 0, Event.printMsg openFailMsg, Event.exitProc 0],
       true) ∧
    ((probe camClosed keysNone 0).1).countP Event.isRead = 0 ∧
    ((probe camClosed keysNone 0).1).countP Event.isImshow = 0 ∧
    ((probe camClosed keysNone 0).1).countP Event.isWaitKey = 0 :=
  probe_open_failure_exits_immediately camClosed keysNone 0 rfl

/-- C4 counterexample: on open failure the probe's exit is the bare
`exit()` which carries status `0`, never a non-zero status: the trace of
the closed camera contains `exitProc 0` and every exit event in it carries
code `0`, refuting the claim that the exit code is non-zero. -/
theorem probe_open_failure_exit_code_cex :
    Event.exitProc 0 ∈ (probe camClosed keysNone 0).1 ∧
    ∀ c, Event.exitProc c ∈ (probe camClosed keysNone 0).1 → c = 0 := by
  constructor
  · simp [probe, camClosed]
  · intro c hc
    simp [probe, camClosed] at hc
    omega

/-- C4 amended: when the camera fails to open, the probe's process exit
carries exit code zero (the bare `exit()` call passes no status). -/
theorem probe_open_failure_exit_code_zero (cam : Camera) (keys : Nat → Nat)
    (fuel : Nat) (h : cam.isOpened = false) :
    Event.exitProc 0 ∈ (probe cam keys fuel).1 ∧
    ∀ c, Event.exitProc c ∈ (probe cam keys fuel).1 → c = 0 := by
  constructor
  · simp [probe, h]
  · intro c hc
    simp [probe, h] at hc
    omega

/-- C4 amended witness: the closed camera. -/
theorem probe_open_failure_exit_code_zero_witness :
    Event.exitProc 0 ∈ (probe camClosed keysNone 0).1 ∧
    ∀ c, Event.exitProc c ∈ (probe camClosed keysNone 0).1 → c = 0 :=
  probe_open_failure_exit_code_zero camClosed keysNone 0 rfl

/-- C5: if after successful reads the quit key is observed at poll `n` (or
the read at `n` fails), the loop terminates, and after loop exit — for
either exit reason — the device release and the window destroy are each
performed exactly once. -/
theorem probe_quit_and_single_cleanup (cam : Camera) (keys : Nat → Nat)
    (fr : Nat → Frame) (n fuel : Nat) (hopen : cam.isOpened = true)
    (hnoq : ∀ j, j < n → keys j &&& 0xFF ≠ ordQ)
    (hexit :
      ((∀ j, j ≤ n → cam.read j = some (fr j)) ∧ keys n &&& 0xFF = ordQ) ∨
      ((∀ j, j < n → cam.read j = some (fr j)) ∧ cam.read n = none))
    (hfuel : n + 1 ≤ fuel) :
    (probe cam keys fuel).2 = true ∧
    ((probe cam keys fuel).1).count Event.release = 1 ∧
    ((probe cam keys fuel).1).count Event.destroyAllWindows = 1 := by
  rcases hexit with ⟨hsucc, hq⟩ | ⟨hsucc, hfail⟩
  · rw [probe_quit_run cam keys fr n fuel hopen hsucc hnoq hq hfuel]
    refine ⟨rfl, ?_, ?_⟩ <;>
      simp [List.count_append, List.count_cons, iterEvents,
        count_release_prefixTrace, count_destroy_prefixTrace]
  · rw [probe_fail_run cam keys fr n fuel hopen hsucc hnoq hfail hfuel]
    refine ⟨rfl, ?_, ?_⟩ <;>
      simp [List.count_append, List.count_cons,
        count_release_prefixTrace, count_destroy_prefixTrace]

/-- C5 witness: a camera that always reads, with the quit key reported at
the first poll: the loop terminates and release / destroy happen once. -/
theorem probe_quit_and_single_cleanup_witness :
    (probe camAlways (keysQuitAt 0) 1).2 = true ∧
    ((probe camAlways (keysQuitAt 0) 1).1).count Event.release = 1 ∧
    ((probe camAlways (keysQuitAt 0) 1).1).count Event.destroyAllWindows = 1 :=
  probe_quit_and_single_cleanup camAlways (keysQuitAt 0) (fun j => j) 0 1 rfl
    (fun j hj => absurd hj (Nat.not_lt_zero j))
    (Or.inl ⟨fun j hj => by simp [camAlways, Nat.le_zero.mp hj],
      by decide⟩)
    (by omega)

/-- C9: in every loop run — whether it ends because the quit key is seen at
iteration `n` or because the read at iteration `n` fails — the frames
displayed are exactly the successfully read frames, in read order; when
those frames are pairwise distinct no frame is displayed twice; and the
trace has the canonical per-iteration shape read–display–poll, so each
frame's display precedes the keypress check of its own iteration and
precedes either exit condition. -/
theorem probe_frames_displayed_once_in_order (cam : Camera)
    (keys : Nat → Nat) (fr : Nat → Frame) (n fuel : Nat)
    (hopen : cam.isOpened = true)
    (hnoq : ∀ j, j < n → keys j &&& 0xFF ≠ ordQ)
    (hfuel : n + 1 ≤ fuel)
    (hinj : ∀ a, a ≤ n → ∀ b, b ≤ n → fr a = fr b → a = b) :
    ((∀ j, j ≤ n → cam.read j = some (fr j)) → keys n &&& 0xFF = ordQ →
      displayedFrames (probe cam keys fuel).1 = (List.range (n + 1)).map fr ∧
      (displayedFrames (probe cam keys fuel).1).Nodup ∧
      (probe cam keys fuel).1 =
        Event.videoCapture 0 :: (prefixTrace fr 0 n ++ iterEvents fr n) ++
          [Event.release, Event.destroyAllWindows]) ∧
    ((∀ j, j < n → cam.read j = some (fr j)) → cam.read n = none →
      displayedFrames (probe cam keys fuel).1 = (List.range n).map fr ∧
      (displayedFrames (probe cam keys fuel).1).Nodup ∧
      (probe cam keys fuel).1 =
        Event.videoCapture 0 ::
          (prefixTrace fr 0 n ++
            [Event.readFrame, Event.printMsg grabFailMsg]) ++
          [Event.release, Event.destroyAllWindows]) := by
  constructor
  · intro hsucc hq
    rw [probe_quit_run cam keys fr n fuel hopen hsucc hnoq hq hfuel]
    have hdisp :
        displayedFrames
          (Event.videoCapture 0 :: (prefixTrace fr 0 n ++ iterEvents fr n) ++
            [Event.release, Event.destroyAllWindows]) =
          (List.range (n + 1)).map fr := by
      simp [displayedFrames, List.filterMap_append, iterEvents]
      have := displayedFrames_prefixTrace fr n 0
      simp [displayedFrames] at this
      rw [this]
      simp [List.range_succ, List.range_eq_range']
    refine ⟨hdisp, ?_, rfl⟩
    rw [hdisp]
    exact (List.nodup_range (n + 1)).map_on fun a ha b hb hfab =>
      hinj a (Nat.lt_succ_iff.mp (List.mem_range.mp ha)) b
        (Nat.lt_succ_iff.mp (List.mem_range.mp hb)) hfab
  · intro hsucc hfail
    rw [probe_fail_run cam keys fr n fuel hopen hsucc hnoq hfail hfuel]
    have hdisp :
        displayedFrames
          (Event.videoCapture 0 ::
            (prefixTrace fr 0 n ++
              [Event.readFrame, Event.printMsg grabFailMsg]) ++
            [Event.release, Event.destroyAllWindows]) =
          (List.range n).map fr := by
      simp [displayedFrames, List.filterMap_append]
      have := displayedFrames_prefixTrace fr n 0
      simp [displayedFrames] at this
      simpa [List.range_eq_range'] using this
    refine ⟨hdisp, ?_, rfl⟩
    rw [hdisp]
    exact (List.nodup_range n).map_on fun a ha b hb hfab =>
      hinj a (Nat.le_of_lt (List.mem_range.mp ha)) b
        (Nat.le_of_lt (List.mem_range.mp hb)) hfab

/-- C9 witness: a camera that always reads, with the quit key reported at
the third poll — the quit-terminated branch is exercised concretely, with
frames `0, 1, 2` displayed once each in order. -/
theorem probe_frames_displayed_once_in_order_witness :
    ((∀ j, j ≤ 2 → (camAlways).read j = some ((fun i => i) j)) →
      keysQuitAt 2 2 &&& 0xFF = ordQ →
      displayedFrames (probe camAlways (keysQuitAt 2) 3).1 =
        (List.range (2 + 1)).map (fun i => i) ∧
      (displayedFrames (probe camAlways (keysQuitAt 2) 3).1).Nodup ∧
      (probe camAlways (keysQuitAt 2) 3).1 =
        Event.videoCapture 0 ::
          (prefixTrace (fun i => i) 0 2 ++ iterEvents (fun i => i) 2) ++
          [Event.release, Event.destroyAllWindows]) ∧
    ((∀ j, j < 2 → (camAlways).read j = some ((fun i => i) j)) →
      (camAlways).read 2 = none →
      displayedFrames (probe camAlways (keysQuitAt 2) 3).1 =
        (List.range 2).map (fun i => i) ∧
      (displayedFrames (probe camAlways (keysQuitAt 2) 3).1).Nodup ∧
      (probe camAlways (keysQuitAt 2) 3).1 =
        Event.videoCapture 0 ::
          (prefixTrace (fun i => i) 0 2 ++
            [Event.readFrame, Event.printMsg grabFailMsg]) ++
          [Event.release, Event.destroyAllWindows]) :=
  probe_frames_displayed_once_in_order camAlways (keysQuitAt 2)
    (fun i => i) 2 3 rfl
    (fun j hj => by
      have hne : j ≠ 2 := by omega
      simp [keysQuitAt, hne, ordQ])
    (by omega)
    (fun a _ b _ h => h)

/-- C10: when the camera fails to open, the probe exits without ever
calling the device release or the window destroy: cleanup happens only on
the loop-exit path. -/
theorem probe_open_failure_no_cleanup (cam : Camera) (keys : Nat → Nat)
    (fuel : Nat) (h : cam.isOpened = false) :
    ((probe cam keys fuel).1).count Event.release = 0 ∧
    ((probe cam keys fuel).1).count Event.destroyAllWindows = 0 := by
  constructor <;> simp [probe, h, List.count_cons]

/-- C10 witness: the closed camera. -/
theorem probe_open_failure_no_cleanup_witness :
    ((probe camClosed keysNone 0).1).count Event.release = 0 ∧
    ((probe camClosed keysNone 0).1).count Event.destroyAllWindows = 0 :=
  probe_open_failure_no_cleanup camClosed keysNone 0 rfl

/-! ## Claim theorems: launcher -/

/-- C1: for every input line, the shared shutdown flag starts false, stays
false through worker start, input consumption and the exit notice, becomes
true at the single assignment after the input line is consumed, and remains
true in every later state; exactly one assignment writes `true` and no
assignment ever writes `false`; along the state sequence, once the flag is
true it never becomes false again. -/
theorem launcher_kill_flag_single_transition (inputLine : String) :
    killSeq inputLine = [false, false, false, false, false, true, true, true] ∧
    setKillCount (mainRun inputLine).trace true = 1 ∧
    setKillCount (mainRun inputLine).trace false = 0 ∧
    (killSeq inputLine).Chain' (fun a b => a = true → b = true) := by
  refine ⟨rfl, rfl, rfl, ?_⟩
  have h : killSeq inputLine =
      [false, false, false, false, false, true, true, true] := rfl
  rw [h]
  simp [List.chain'_cons]

/-- C6: for every run of the launcher the effects occur in this exact
order: construct the worker, start it, consume one line of input, print the
exit notice, set the shutdown flag to true, sleep half a time unit,
terminate the process — in particular the sleep lies between the flag write
and termination. -/
theorem launcher_effect_order (inputLine : String) :
    (mainRun inputLine).trace =
      [MainEvent.constructWorker, MainEvent.startWorker, MainEvent.readLine,
       MainEvent.printMsg "Exiting…", MainEvent.setKillThreads true,
       MainEvent.sleepFor (1 / 2), MainEvent.exitProc 0] := rfl

/-- C7: a single line of console input — any line, including the empty
one — unblocks the launcher's wait and drives it to completion: the input
is consumed, the exit notice is printed, the flag ends true, the sleep
happens, and the process terminates as the last effect. -/
theorem launcher_any_input_completes (inputLine : String) :
    MainEvent.readLine ∈ (mainRun inputLine).trace ∧
    MainEvent.printMsg "Exiting…" ∈ (mainRun inputLine).trace ∧
    (mainRun inputLine).killThreads = true ∧
    MainEvent.sleepFor (1 / 2) ∈ (mainRun inputLine).trace ∧
    (mainRun inputLine).trace.getLast? = some (MainEvent.exitProc 0) := by
  have h : (mainRun inputLine).trace =
      [MainEvent.constructWorker, MainEvent.startWorker, MainEvent.readLine,
       MainEvent.printMsg "Exiting…", MainEvent.setKillThreads true,
       MainEvent.sleepFor (1 / 2), MainEvent.exitProc 0] := rfl
  refine ⟨?_, ?_, rfl, ?_, ?_⟩ <;> rw [h] <;> simp

/-- C8: the launcher's observable behaviour does not depend on the content
of the input line: any two input lines give the same printed output, the
same final flag value, and the same effect trace (hence the same
termination behaviour) — the bound input value is never used. -/
theorem launcher_input_noninterference (lineA lineB : String) :
    printedMsgs (mainRun lineA).trace = printedMsgs (mainRun lineB).trace ∧
    (mainRun lineA).killThreads = (mainRun lineB).killThreads ∧
    (mainRun lineA).trace = (mainRun lineB).trace := ⟨rfl, rfl, rfl⟩

end MediapipeAvatar
